import Mathlib

/-!
Verification of the photobooth kiosk (joystick edge detection, web-server
capture gate and routes, kiosk review/printing transition, image-geometry
and path computations), shallowly embedded from the Python sources.
-/

namespace Joystick

/-- HID report byte index holding the button bits (src/joystick.py `BUTTON_BYTE`). -/
def BUTTON_BYTE : Nat := 5

/-- Mask isolating the button nibble (src/joystick.py `BUTTON_MASK = 0xF0`). -/
def BUTTON_MASK : Nat := 0xF0

/-- Bit position of button K1 (single photo). -/
def K1_BIT : Nat := 4

/-- Bit position of button K2 (photo strip). -/
def K2_BIT : Nat := 5

/-- Global debounce window in seconds (src/joystick.py `DEBOUNCE_SECONDS = 2.0`). -/
def DEBOUNCE_SECONDS : ℚ := 2

/-- Callback events a report can fire: `on_single_photo` (K1) or `on_photo_strip` (K2). -/
inductive JEvent where
  | singlePhoto
  | photoStrip
deriving DecidableEq, Repr

/-- Mutable joystick-controller state relevant to `_handle_report`:
`prev` is `_prev_buttons`, `last` is `_last_press_time` (seconds). -/
structure JState where
  prev : Nat
  last : ℚ
deriving DecidableEq, Repr

/-- One HID report together with the wall-clock time `time.time()` returns when
it is handled; `data` is the raw report byte list. -/
structure Report where
  time : ℚ
  data : List Nat
deriving DecidableEq, Repr

/-- Embedding of `JoystickController._handle_report` (src/joystick.py:95-121).
Python's `buttons & ~prev` is rendered as `buttons &&& (BUTTON_MASK ^^^ prev)`:
since `buttons` has bits only inside `BUTTON_MASK`, intersecting with
`BUTTON_MASK ^^^ prev` keeps exactly the bits of `buttons` absent from `prev`,
the same value as the two's-complement `&~` on non-negative ints.
Returns the updated state and the callback fired, if any. -/
def handle_report (now : ℚ) (data : List Nat) (s : JState) : JState × Option JEvent :=
  let buttons := data.getD BUTTON_BYTE 0 &&& BUTTON_MASK
  let prev := s.prev
  let s1 : JState := { s with prev := buttons }
  let rising := buttons &&& (BUTTON_MASK ^^^ prev)
  if rising = 0 then (s1, none)
  else if now - s.last < DEBOUNCE_SECONDS then (s1, none)
  else if rising &&& (1 <<< K1_BIT) ≠ 0 then ({ s1 with last := now }, some .singlePhoto)
  else if rising &&& (1 <<< K2_BIT) ≠ 0 then ({ s1 with last := now }, some .photoStrip)
  else (s1, none)

/-- Embedding of the `except` branch of `JoystickController._run`
(src/joystick.py:88-93): on a read error the device is closed and
`_prev_buttons` is reset to zero; `_last_press_time` is untouched. -/
def disconnectReset (s : JState) : JState :=
  { s with prev := 0 }

/-- Process a list of timed reports through `_handle_report`, collecting the
fired callbacks with the times at which they fired. -/
def runReports (s : JState) : List Report → JState × List (ℚ × JEvent)
  | [] => (s, [])
  | r :: rs =>
    let step := handle_report r.time r.data s
    let rest := runReports step.1 rs
    (rest.1, match step.2 with
             | some e => (r.time, e) :: rest.2
             | none => rest.2)

/-- Button bit tested for each callback: K1 fires the single photo, K2 the
photo strip. -/
def bitOf : JEvent → Nat
  | .singlePhoto => K1_BIT
  | .photoStrip => K2_BIT

/-- Count of occurrences of one callback in a fired-event list. -/
def countEv (e : JEvent) (evs : List (ℚ × JEvent)) : Nat :=
  (evs.filter fun p => p.2 == e).length

end Joystick

/-- A filesystem path or filename, as the list of its characters. -/
abbrev PathC := List Char

namespace Photobooth

/-- Pixel dimensions of an image: width × height. -/
structure Img where
  w : Nat
  h : Nat
deriving DecidableEq, Repr

/-- Thermal printer raster width in pixels for 80mm paper
(src/photobooth.py:389, `thermal_width = 576`). -/
def thermal_width : Nat := 576

/-- Output geometry of `process_for_thermal` (src/photobooth.py:380-416): the
input is resized to the fixed raster width with
`new_height = int(thermal_width * (img.height / img.width))`, preserving the
aspect ratio; the source definition has no `is_strip` parameter and performs
no crop. `int(...)` of the non-negative quotient is the floor, rendered as
Nat division. -/
def process_for_thermal_size (img : Img) : Img :=
  ⟨thermal_width, thermal_width * img.h / img.w⟩

/-- Target width used by `create_photo_strip` (src/photobooth.py:468). -/
def target_width : Nat := 576

/-- Resize of one strip input to the common width (src/photobooth.py:470-473):
`new_height = int(target_width * (img.height / img.width))`. -/
def resize_to_target (img : Img) : Img :=
  ⟨target_width, target_width * img.h / img.w⟩

/-- Geometry of `create_photo_strip` (src/photobooth.py:460-492): `None` for
an empty photo list; otherwise every input is resized to the target width
preserving aspect ratio and the white canvas is `target_width` wide and
`sum of resized heights + spacing * (len - 1)` tall. -/
def create_photo_strip (imgs : List Img) (spacing : Nat := 20) : Option Img :=
  if imgs = [] then none
  else
    let resized := imgs.map resize_to_target
    some ⟨target_width, (resized.map Img.h).sum + spacing * (resized.length - 1)⟩

/-- Python `str.replace(pat, rep)` scanning left to right over `s`, replacing
each non-overlapping occurrence of a non-empty `pat` by `rep`. The fuel
argument (instantiated with `s.length` below, enough since every step consumes
at least one character) makes the recursion structural. -/
def strReplaceAux (fuel : Nat) (s pat rep : List Char) : List Char :=
  match fuel, s with
  | 0, s => s
  | _ + 1, [] => []
  | fuel + 1, c :: rest =>
    if pat ≠ [] ∧ pat.isPrefixOf (c :: rest) then
      rep ++ strReplaceAux fuel ((c :: rest).drop pat.length) pat rep
    else
      c :: strReplaceAux fuel rest pat rep

/-- Python `s.replace(pat, rep)` for a non-empty pattern. -/
def strReplace (s pat rep : List Char) : List Char :=
  strReplaceAux s.length s pat rep

/-- Python `pat in s` for strings: `pat` occurs contiguously in `s`. -/
def containsSub (s pat : List Char) : Bool :=
  match s with
  | [] => pat.isEmpty
  | c :: rest => pat.isPrefixOf (c :: rest) || containsSub rest pat

/-- Output path computed by `process_for_thermal` (src/photobooth.py:412):
`processed_path = image_path.replace('.jpg', '_thermal.png')`. -/
def processed_path (image_path : PathC) : PathC :=
  strReplace image_path ".jpg".toList "_thermal.png".toList

end Photobooth

namespace Server

/-- POSIX `os.path.basename`: the part of the path after the last slash. -/
def basename (p : PathC) : PathC :=
  (p.reverse.takeWhile (fun c => c ≠ '/')).reverse

/-- In-memory `photo_metadata` (src/server.py:73): an association from
filename to the per-photo dict, which is modelled by its only key — the
`liked` flag, `none` when the key is absent (a freshly created `{}` entry). -/
abbrev Metadata := List (PathC × Option Bool)

/-- Dictionary lookup: `filename in photo_metadata` / `photo_metadata[filename]`. -/
def mdLookup (md : Metadata) (fn : PathC) : Option (Option Bool) :=
  match md with
  | [] => none
  | (k, v) :: rest => if k = fn then some v else mdLookup rest fn

/-- Dictionary store: `photo_metadata[filename] = entry` (insert or update). -/
def mdSet (md : Metadata) (fn : PathC) (v : Option Bool) : Metadata :=
  match md with
  | [] => [(fn, v)]
  | (k, w) :: rest => if k = fn then (k, v) :: rest else (k, w) :: mdSet rest fn v

/-- The liked flag as the code reads it:
`photo_metadata.get(filename, {}).get("liked", False)`. -/
def likedOf (md : Metadata) (fn : PathC) : Bool :=
  match mdLookup md fn with
  | some (some b) => b
  | _ => false

/-- Embedding of `toggle_like` (src/server.py:206-223): take the basename,
create an empty entry if the filename is missing, read the current liked
status with default `False`, and store its negation. -/
def toggle_like (md : Metadata) (name : PathC) : Metadata :=
  let filename := basename name
  let md1 := if (mdLookup md filename).isSome then md else mdSet md filename none
  let current := likedOf md1 filename
  mdSet md1 filename (some (!current))

/-- `last_result` snapshots assigned by the server code (src/server.py). Only
the status discriminant is tracked; `success` keeps the captured path. -/
inductive ResultStatus where
  | ready
  | capturing
  | processing
  | success (photo : PathC)
  | error
deriving DecidableEq, Repr

/-- Web-server module state touched by the capture workers (src/server.py):
the capture gate `photo_in_progress`, the `last_result` snapshot, and the
in-memory `photo_metadata`. -/
structure SrvState where
  photo_in_progress : Bool
  last_result : ResultStatus
  photo_metadata : Metadata
deriving Repr

/-- Outcome of a fallible block: it ran to completion with a value, or some
statement in it raised an exception. -/
inductive Outcome (α : Type) where
  | ok (val : α)
  | exn
deriving Repr

/-- Embedding of the body of the background worker `take_photo.capture`
(src/server.py:298-331): set the gate and `last_result = capturing`; the
`try` block's effect is summarized by `o` — the optional filepath
`camera.capture` returned (processing/printing do not assign `last_result`),
or an exception anywhere in the block; the `except` arm records an error
result; the `finally` clause clears the gate. -/
def captureSingleRun (o : Outcome (Option PathC)) (s : SrvState) : SrvState :=
  let s1 : SrvState := { s with photo_in_progress := true, last_result := .capturing }
  let s2 : SrvState :=
    match o with
    | .ok (some fp) => { s1 with last_result := .success fp }
    | .ok none => { s1 with last_result := .error }
    | .exn => { s1 with last_result := .error }
  { s2 with photo_in_progress := false }

/-- Embedding of the body of the background worker `take_strip.capture`
(src/server.py:352-420): set the gate; the `try` block's effect is summarized
by `o` — the list of per-shot paths that succeeded together with the result
of `create_photo_strip` when the list was non-empty — or an exception
anywhere in the block; the `finally` clause clears the gate. -/
def captureStripRun (o : Outcome (List PathC × Option PathC)) (s : SrvState) : SrvState :=
  let s1 : SrvState := { s with photo_in_progress := true }
  let s2 : SrvState :=
    match o with
    | .ok (paths, stripRes) =>
      if paths ≠ [] then
        match stripRes with
        | some strip => { s1 with last_result := .success strip }
        | none => { s1 with last_result := .error }
      else { s1 with last_result := .error }
    | .exn => { s1 with last_result := .error }
  { s2 with photo_in_progress := false }

/-- An HTTP response: status code plus the JSON payload's status and message
fields. -/
structure HttpResponse where
  code : Nat
  status : String
  message : String
deriving DecidableEq, Repr

/-- Embedding of the request-time admission logic of `take_photo`
(src/server.py:287-336): reject with 400 while the gate is set, with 500 when
the global camera was never initialized (`cameraPresent` is
`camera is not None`), otherwise answer "started"; the boolean records
whether the background capture thread was launched. -/
def take_photo (s : SrvState) (cameraPresent : Bool) : HttpResponse × Bool :=
  if s.photo_in_progress then
    (⟨400, "error", "Photo already in progress!"⟩, false)
  else if !cameraPresent then
    (⟨500, "error", "Camera not initialized!"⟩, false)
  else
    (⟨200, "started", "Taking photo..."⟩, true)

end Server

namespace Kiosk

/-- Kiosk state-machine states (src/kiosk.py:22-29). -/
inductive KMode where
  | IDLE
  | COUNTDOWN
  | FLASH
  | CAPTURE
  | STRIP_GAP
  | REVIEW
  | PRINTING
deriving DecidableEq, Repr

/-- Review-screen duration in seconds (src/kiosk.py:34, `REVIEW_DURATION = 4`). -/
def REVIEW_DURATION : ℚ := 4

/-- One launched print job: the image path handed to `_start_printing`
together with its strip flag. -/
structure PrintJob where
  path : PathC
  strip : Bool
deriving DecidableEq, Repr

/-- Kiosk fields consulted by the Review→Printing transition (src/kiosk.py):
current state and its entry time, `_current_print_path`, `_current_is_strip`
and `_print_done`. -/
structure KState where
  state : KMode
  state_start : ℚ
  current_print_path : Option PathC
  current_is_strip : Bool
  print_done : Bool
deriving Repr

/-- Embedding of `_enter_state` (src/kiosk.py:146-148). -/
def enter_state (st : KMode) (now : ℚ) (s : KState) : KState :=
  { s with state := st, state_start := now }

/-- Embedding of `_start_printing` (src/kiosk.py:164-177) at the state level:
clear `_print_done`, enter PRINTING, and spawn the print thread — returned
here as the launched job. -/
def start_printing (now : ℚ) (image_path : PathC) (is_str : Bool) (s : KState) :
    KState × Option PrintJob :=
  (enter_state .PRINTING now { s with print_done := false }, some ⟨image_path, is_str⟩)

/-- Embedding of `_start_printing_current` (src/kiosk.py:386-391): start
printing the pending output path if one is set, else fall back to IDLE
without starting any print. -/
def start_printing_current (now : ℚ) (s : KState) : KState × Option PrintJob :=
  match s.current_print_path with
  | some p => start_printing now p s.current_is_strip s
  | none => (enter_state .IDLE now s, none)

/-- Embedding of the REVIEW branch of `_tick` (src/kiosk.py:306-351): with
`elapsed = now - state_start`, once the review duration has elapsed the
controller delegates to `_start_printing_current`; otherwise nothing changes
and no print job starts. -/
def tick_review (now : ℚ) (s : KState) : KState × Option PrintJob :=
  if s.state = .REVIEW ∧ now - s.state_start ≥ REVIEW_DURATION then
    start_printing_current now s
  else
    (s, none)

end Kiosk

namespace Joystick

/-- Whichever branch `_handle_report` takes, the stored previous-button state
becomes the masked button byte of the current report. -/
theorem handle_report_prev (now : ℚ) (data : List Nat) (s : JState) :
    (handle_report now data s).1.prev = data.getD BUTTON_BYTE 0 &&& BUTTON_MASK := by
  unfold handle_report
  dsimp only
  repeat' split
  all_goals rfl

/-- If no callback fires, `_last_press_time` is unchanged; if one fires, the
debounce window had elapsed and `_last_press_time` becomes the report time. -/
theorem handle_report_spec (now : ℚ) (data : List Nat) (s : JState) :
    ((handle_report now data s).2 = none → (handle_report now data s).1.last = s.last) ∧
    (∀ e, (handle_report now data s).2 = some e →
      s.last + DEBOUNCE_SECONDS ≤ now ∧ (handle_report now data s).1.last = now) := by
  unfold handle_report
  dsimp only
  split
  · exact ⟨fun _ => rfl, fun e h => nomatch h⟩
  split
  case isTrue hdeb => exact ⟨fun _ => rfl, fun e h => nomatch h⟩
  case isFalse hdeb =>
    have hle : s.last + DEBOUNCE_SECONDS ≤ now := by
      have := not_lt.mp hdeb
      linarith
    split
    · exact ⟨(fun h => nomatch h), fun e _ => ⟨hle, rfl⟩⟩
    split
    · exact ⟨(fun h => nomatch h), fun e _ => ⟨hle, rfl⟩⟩
    · exact ⟨fun _ => rfl, fun e h => nomatch h⟩

/-- Auxiliary invariant: along any report trace, accepted presses are at least
the debounce window apart, and the first accepted press is at least the
debounce window after the state's `_last_press_time`. -/
theorem runReports_debounce_aux (rs : List Report) (s : JState) :
    List.Chain' (fun a b => a.1 + DEBOUNCE_SECONDS ≤ b.1) (runReports s rs).2 ∧
    ∀ x ∈ (runReports s rs).2.head?, s.last + DEBOUNCE_SECONDS ≤ x.1 := by
  induction rs generalizing s with
  | nil => simp [runReports]
  | cons r rs ih =>
    have hspec := handle_report_spec r.time r.data s
    rcases h2 : (handle_report r.time r.data s).2 with _ | e
    · have hlast := hspec.1 h2
      have ihs := ih (handle_report r.time r.data s).1
      constructor
      · simpa [runReports, h2] using ihs.1
      · intro x hx
        have : s.last = (handle_report r.time r.data s).1.last := hlast.symm
        rw [this]
        exact ihs.2 x (by simpa [runReports, h2] using hx)
    · obtain ⟨hdeb, hlast⟩ := hspec.2 e h2
      have ihs := ih (handle_report r.time r.data s).1
      constructor
      · have hout : (runReports s (r :: rs)).2
            = (r.time, e) :: (runReports (handle_report r.time r.data s).1 rs).2 := by
          simp [runReports, h2]
        rw [hout, List.chain'_cons']
        refine ⟨?_, ihs.1⟩
        intro y hy
        have := ihs.2 y hy
        rw [hlast] at this
        exact this
      · intro x hx
        have hout : (runReports s (r :: rs)).2
            = (r.time, e) :: (runReports (handle_report r.time r.data s).1 rs).2 := by
          simp [runReports, h2]
        rw [hout] at hx
        simp only [List.head?_cons, Option.mem_def, Option.some.injEq] at hx
        subst hx
        exact hdeb

/-- C1: for every sequence of HID reports processed by the joystick handler,
the accepted (callback-firing) presses are separated by at least the global
2-second debounce window, counted from the last accepted press and regardless
of which button fired each time; hence a second rising edge arriving less than
the window after the last accepted press — even on a different button — never
fires a callback. -/
theorem c1_debounce_is_global (s : JState) (rs : List Report) :
    List.Chain' (fun a b => a.1 + DEBOUNCE_SECONDS ≤ b.1) (runReports s rs).2 :=
  (runReports_debounce_aux rs s).1

/-- Testing helper: the button nibble mask has bit `K1_BIT` set. -/
theorem button_mask_testBit_k1 : BUTTON_MASK.testBit K1_BIT = true := by
  decide

/-- Testing helper: the button nibble mask contains the bit of every callback. -/
theorem button_mask_testBit (e : JEvent) : BUTTON_MASK.testBit (bitOf e) = true := by
  cases e <;> decide

/-- A report whose masked button byte keeps the bit of callback `e` set,
handled from a state whose previous-button byte also has that bit set, never
fires `e`: the bit is not a rising edge. -/
theorem handle_report_no_fire (e : JEvent) (now : ℚ) (data : List Nat) (s : JState)
    (hheld : (data.getD BUTTON_BYTE 0 &&& BUTTON_MASK).testBit (bitOf e) = true)
    (hprev : s.prev.testBit (bitOf e) = true) :
    (handle_report now data s).2 ≠ some e := by
  have hbit : ((data.getD BUTTON_BYTE 0 &&& BUTTON_MASK)
      &&& (BUTTON_MASK ^^^ s.prev)).testBit (bitOf e) = false := by
    rw [Nat.testBit_and, Nat.testBit_xor, hheld, hprev, button_mask_testBit]
    rfl
  have hzero : ((data.getD BUTTON_BYTE 0 &&& BUTTON_MASK)
      &&& (BUTTON_MASK ^^^ s.prev)) &&& (1 <<< bitOf e) = 0 := by
    rw [Nat.one_shiftLeft, Nat.and_two_pow, hbit]
    simp
  cases e with
  | singlePhoto =>
    unfold handle_report
    dsimp only
    split
    · simp
    split
    · simp
    split
    next hk1 => exact absurd hzero hk1
    split
    · simp
    · simp
  | photoStrip =>
    unfold handle_report
    dsimp only
    split
    · simp
    split
    · simp
    split
    · simp
    split
    next hk2 => exact absurd hzero hk2
    · simp

/-- While the previous-button byte keeps the bit of callback `e` set and
every report keeps it set, `e` never fires along the trace. -/
theorem runReports_ev_zero (e : JEvent) (rs : List Report) (s : JState)
    (hprev : s.prev.testBit (bitOf e) = true)
    (hheld : ∀ r ∈ rs, (r.data.getD BUTTON_BYTE 0 &&& BUTTON_MASK).testBit (bitOf e) = true) :
    countEv e (runReports s rs).2 = 0 := by
  induction rs generalizing s with
  | nil => simp [runReports, countEv]
  | cons r rs ih =>
    have hr := hheld r (List.mem_cons_self r rs)
    have hno := handle_report_no_fire e r.time r.data s hr hprev
    have hprev2 : (handle_report r.time r.data s).1.prev.testBit (bitOf e) = true := by
      rw [handle_report_prev]
      exact hr
    have hrest := ih (handle_report r.time r.data s).1 hprev2
      (fun x hx => hheld x (List.mem_cons_of_mem r hx))
    rcases h2 : (handle_report r.time r.data s).2 with _ | f
    · simpa [runReports, h2, countEv] using hrest
    · have hne : f ≠ e := fun hf => hno (hf ▸ h2)
      have hout : (runReports s (r :: rs)).2
          = (r.time, f) :: (runReports (handle_report r.time r.data s).1 rs).2 := by
        simp [runReports, h2]
      have hb : (f == e) = false := by
        simp [hne]
      rw [hout]
      simpa [countEv, List.filter_cons, hb] using hrest

/-- C2: over any sequence of consecutive HID reports in which a button bit
remains set, the corresponding callback is invoked at most once — only on the
report where that bit goes 0→1 relative to the stored previous bits —
however many subsequent reports repeat the same bits. -/
theorem c2_edge_not_level (s : JState) (rs : List Report) (e : JEvent)
    (hheld : ∀ r ∈ rs, (r.data.getD BUTTON_BYTE 0 &&& BUTTON_MASK).testBit (bitOf e) = true) :
    countEv e (runReports s rs).2 ≤ 1 := by
  cases rs with
  | nil => simp [runReports, countEv]
  | cons r rs =>
    have hr := hheld r (List.mem_cons_self r rs)
    have hprev2 : (handle_report r.time r.data s).1.prev.testBit (bitOf e) = true := by
      rw [handle_report_prev]
      exact hr
    have hrest := runReports_ev_zero e rs (handle_report r.time r.data s).1 hprev2
      (fun x hx => hheld x (List.mem_cons_of_mem r hx))
    rcases h2 : (handle_report r.time r.data s).2 with _ | f
    · have hout : (runReports s (r :: rs)).2
          = (runReports (handle_report r.time r.data s).1 rs).2 := by
        simp [runReports, h2]
      rw [hout, hrest]
      exact Nat.zero_le 1
    · have hout : (runReports s (r :: rs)).2
          = (r.time, f) :: (runReports (handle_report r.time r.data s).1 rs).2 := by
        simp [runReports, h2]
      rw [hout]
      unfold countEv at hrest ⊢
      rw [List.filter_cons]
      split
      · simp [hrest]
      · simp [hrest]

/-- Witness for C2 at a concrete held-button trace: the report byte 5 stays
at 0x10 (K1 held) over three consecutive reports — the last far outside the
debounce window — and the single-photo callback still fires at most once. -/
theorem c2_edge_not_level_witness :
    (∀ r ∈ [Report.mk 0 [0, 0, 0, 0, 0, 0x10], Report.mk 1 [0, 0, 0, 0, 0, 0x10],
        Report.mk 5 [0, 0, 0, 0, 0, 0x10]],
      (r.data.getD BUTTON_BYTE 0 &&& BUTTON_MASK).testBit (bitOf .singlePhoto) = true) ∧
    countEv .singlePhoto (runReports ⟨0, 0⟩ [⟨0, [0, 0, 0, 0, 0, 0x10]⟩,
        ⟨1, [0, 0, 0, 0, 0, 0x10]⟩, ⟨5, [0, 0, 0, 0, 0, 0x10]⟩]).2 ≤ 1 :=
  ⟨by
    intro r hr
    fin_cases hr <;> decide,
   c2_edge_not_level ⟨0, 0⟩ _ .singlePhoto (by
    intro r hr
    fin_cases hr <;> decide)⟩

/-- From a state whose previous-button byte is zero — exactly what the
disconnect path leaves behind — a report with K1 held fires the single-photo
callback as soon as the debounce window has elapsed since the last accepted
press: the held bit registers as a rising edge. -/
theorem handle_report_fires_k1 (now : ℚ) (data : List Nat) (s : JState)
    (hprev : s.prev = 0)
    (hheld : (data.getD BUTTON_BYTE 0 &&& BUTTON_MASK).testBit K1_BIT = true)
    (hdeb : s.last + DEBOUNCE_SECONDS ≤ now) :
    (handle_report now data s).2 = some JEvent.singlePhoto := by
  have hbit : ((data.getD BUTTON_BYTE 0 &&& BUTTON_MASK)
      &&& (BUTTON_MASK ^^^ s.prev)).testBit K1_BIT = true := by
    rw [hprev, Nat.testBit_and, hheld, Nat.testBit_xor, button_mask_testBit_k1,
      Nat.zero_testBit]
    rfl
  have hk1 : ((data.getD BUTTON_BYTE 0 &&& BUTTON_MASK)
      &&& (BUTTON_MASK ^^^ s.prev)) &&& (1 <<< K1_BIT) ≠ 0 := by
    rw [Nat.one_shiftLeft, Nat.and_two_pow, hbit]
    simp [K1_BIT]
  have hrise : ((data.getD BUTTON_BYTE 0 &&& BUTTON_MASK)
      &&& (BUTTON_MASK ^^^ s.prev)) ≠ 0 := by
    intro h0
    rw [h0] at hbit
    simp [Nat.zero_testBit] at hbit
  have hnd : ¬ (now - s.last < DEBOUNCE_SECONDS) := by
    push_neg
    linarith
  unfold handle_report
  dsimp only
  rw [if_neg hrise, if_neg hnd, if_pos hk1]

/-- C3 counterexample: concrete refutation of "a button already held down at
reconnect time does not spuriously fire a callback on the first report after
reconnection". Before the read error the K1 button is held (`prev = 0x10`);
the disconnect path zeroes the stored previous bits; the first report after
reconnection still reports K1 held (byte 5 = 0x10) at time 10, well past the
debounce window, and the single-photo callback DOES fire. -/
theorem c3_counterexample :
    (handle_report 10 [0, 0, 0, 0, 0, 0x10] (disconnectReset ⟨0x10, 0⟩)).2
      = some JEvent.singlePhoto := by
  simp [disconnectReset, handle_report, BUTTON_BYTE, BUTTON_MASK, K1_BIT, DEBOUNCE_SECONDS]
  norm_num

/-- C3 amended: after a read error forces the joystick into the disconnected
state (which resets the stored previous-button bits to zero) and the device
later reconnects, a button already held down at reconnect time (here K1) DOES
fire its callback on the first report received after reconnection, provided
the global debounce window has elapsed since the last accepted press — the
zeroed previous-bits make the held bit register as a rising edge. -/
theorem c3_amended_reconnect_fires (s : JState) (now : ℚ) (data : List Nat)
    (hheld : (data.getD BUTTON_BYTE 0 &&& BUTTON_MASK).testBit K1_BIT = true)
    (hdeb : s.last + DEBOUNCE_SECONDS ≤ now) :
    (handle_report now data (disconnectReset s)).2 = some JEvent.singlePhoto :=
  handle_report_fires_k1 now data (disconnectReset s) rfl hheld hdeb

/-- Witness for the amended C3 at a concrete input: K1 held (report byte 5 =
0x10) at time 20, previous buttons 0x20 before the disconnect, last accepted
press at time 1. -/
theorem c3_amended_witness :
    ((List.getD [0, 0, 0, 0, 0, 0x10] BUTTON_BYTE 0 &&& BUTTON_MASK).testBit K1_BIT = true) ∧
    ((1 : ℚ) + DEBOUNCE_SECONDS ≤ 20) ∧
    (handle_report 20 [0, 0, 0, 0, 0, 0x10] (disconnectReset ⟨0x20, 1⟩)).2
      = some JEvent.singlePhoto :=
  ⟨by decide,
   by norm_num [DEBOUNCE_SECONDS],
   c3_amended_reconnect_fires ⟨0x20, 1⟩ 20 [0, 0, 0, 0, 0, 0x10]
     (by decide)
     (by norm_num [DEBOUNCE_SECONDS])⟩

end Joystick

namespace Photobooth

/-- C7 (code-bug evidence): `process_for_thermal` as defined in
src/photobooth.py has no `is_strip` parameter and never square-crops: on a
single 1280×720 webcam photo it produces a 576×324 raster — not the square
576×576 raster that the spec's two-branch renderer (and the callers in
src/server.py and src/kiosk.py, which pass `is_strip=`) require. -/
theorem c7_no_square_crop_in_code :
    process_for_thermal_size ⟨1280, 720⟩ = ⟨576, 324⟩ ∧
    (process_for_thermal_size ⟨1280, 720⟩).h ≠ (process_for_thermal_size ⟨1280, 720⟩).w := by
  constructor
  · rfl
  · decide

/-- A square input with positive side resizes to exactly 576×576. -/
theorem resize_square (i : Img) (hw : 0 < i.w) (hh : i.h = i.w) :
    resize_to_target i = ⟨576, 576⟩ := by
  unfold resize_to_target target_width
  rw [hh, Nat.mul_div_cancel _ hw]

/-- C8: `create_photo_strip` returns none for an empty input list; for a
non-empty list it composes a 576-wide strip whose height is the sum of the
resized heights plus spacing×(N−1); for square inputs every resized height is
576, so three squares give height 3×576 + 2×spacing. -/
theorem c8_strip_geometry (spacing : Nat) (imgs : List Img)
    (hne : imgs ≠ [])
    (hsq : ∀ i ∈ imgs, 0 < i.w ∧ i.h = i.w) :
    create_photo_strip [] spacing = none ∧
    create_photo_strip imgs spacing
      = some ⟨576, ((imgs.map resize_to_target).map Img.h).sum
          + spacing * (imgs.length - 1)⟩ ∧
    (imgs.length = 3 →
      create_photo_strip imgs spacing = some ⟨576, 3 * 576 + 2 * spacing⟩) := by
  have hmap : (imgs.map resize_to_target).map Img.h = List.replicate imgs.length 576 := by
    rw [List.map_map]
    have heq : ∀ i ∈ imgs, (Img.h ∘ resize_to_target) i = (fun _ => (576 : Nat)) i := by
      intro i hi
      obtain ⟨hw, hh⟩ := hsq i hi
      simp [Function.comp, resize_square i hw hh]
    rw [List.map_congr_left heq]
    simp [List.map_const']
  refine ⟨by simp [create_photo_strip], ?_, ?_⟩
  · simp [create_photo_strip, hne, target_width]
  · intro h3
    simp [create_photo_strip, hne, target_width, hmap, h3, List.sum_replicate]
    omega

/-- Witness for C8 at three concrete square frames (100², 200², 50²) with the
default spacing 20: the strip is 576 × (3·576 + 2·20). -/
theorem c8_strip_geometry_witness :
    ([(⟨100, 100⟩ : Img), ⟨200, 200⟩, ⟨50, 50⟩] ≠ []) ∧
    (∀ i ∈ [(⟨100, 100⟩ : Img), ⟨200, 200⟩, ⟨50, 50⟩], 0 < i.w ∧ i.h = i.w) ∧
    create_photo_strip [⟨100, 100⟩, ⟨200, 200⟩, ⟨50, 50⟩] 20
      = some ⟨576, 3 * 576 + 2 * 20⟩ :=
  ⟨by decide, by decide,
   (c8_strip_geometry 20 [⟨100, 100⟩, ⟨200, 200⟩, ⟨50, 50⟩]
     (by decide) (by decide)).2.2 (by decide)⟩

/-- When the pattern does not occur in `s`, replace returns `s` unchanged,
for any fuel. -/
theorem strReplaceAux_of_not_contains (fuel : Nat) (s pat rep : List Char)
    (h : containsSub s pat = false) :
    strReplaceAux fuel s pat rep = s := by
  induction fuel generalizing s with
  | zero => rfl
  | succ fuel ih =>
    cases s with
    | nil => rfl
    | cons c rest =>
      have hor := h
      simp only [containsSub, Bool.or_eq_false_iff] at hor
      obtain ⟨hp, hrest⟩ := hor
      unfold strReplaceAux
      rw [if_neg]
      · rw [ih rest hrest]
      · rintro ⟨-, hpre⟩
        rw [hp] at hpre
        exact Bool.false_ne_true hpre

/-- C10: for any input path that does not contain the substring ".jpg" — for
example a .png file — `process_for_thermal` computes an output path equal to
the input path, so saving the 1-bit dithered result overwrites the input file
in place; the "_thermal.png" marker only ever lands in paths containing
".jpg". -/
theorem c10_non_jpg_saved_in_place (p : PathC)
    (h : containsSub p ".jpg".toList = false) :
    processed_path p = p :=
  strReplaceAux_of_not_contains p.length p _ _ h

/-- Witness for C10: a PNG path is returned unchanged, so the dithered image
is saved over the input file. -/
theorem c10_non_jpg_saved_in_place_witness :
    containsSub "photos/photostrip_1.png".toList ".jpg".toList = false ∧
    processed_path "photos/photostrip_1.png".toList = "photos/photostrip_1.png".toList :=
  ⟨by decide, c10_non_jpg_saved_in_place _ (by decide)⟩

end Photobooth

namespace Server

/-- Storing under a key then looking the key up yields the stored value. -/
theorem mdLookup_mdSet_self (md : Metadata) (fn : PathC) (v : Option Bool) :
    mdLookup (mdSet md fn v) fn = some v := by
  induction md with
  | nil => simp [mdSet, mdLookup]
  | cons kv rest ih =>
    obtain ⟨k, w⟩ := kv
    by_cases hk : k = fn
    · simp [mdSet, mdLookup, hk]
    · simp [mdSet, mdLookup, hk, ih]

/-- One like-toggle leaves the entry present under the basename, holding the
flipped liked flag. -/
theorem toggle_like_lookup (md : Metadata) (name : PathC) :
    mdLookup (toggle_like md name) (basename name)
      = some (some (!likedOf md (basename name))) := by
  unfold toggle_like
  by_cases hx : (mdLookup md (basename name)).isSome
  · simp only [hx, if_true]
    rw [mdLookup_mdSet_self]
  · have hnone : mdLookup md (basename name) = none := by
      rwa [← Option.not_isSome_iff_eq_none]
    have h1 : likedOf (mdSet md (basename name) none) (basename name) = false := by
      unfold likedOf
      rw [mdLookup_mdSet_self]
    have h2 : likedOf md (basename name) = false := by
      unfold likedOf
      rw [hnone]
    simp only [hx, if_false, Bool.false_eq_true]
    rw [mdLookup_mdSet_self, h1, h2]

/-- Toggling the same name twice restores the liked flag. -/
theorem toggle_like_involutive (md : Metadata) (name : PathC) :
    likedOf (toggle_like (toggle_like md name) name) (basename name)
      = likedOf md (basename name) := by
  have h1 := toggle_like_lookup md name
  have h2 := toggle_like_lookup (toggle_like md name) name
  have hl1 : likedOf (toggle_like md name) (basename name)
      = !likedOf md (basename name) := by
    unfold likedOf
    rw [h1]
    rfl
  unfold likedOf
  rw [h2, hl1, Bool.not_not]
  rfl

/-- C9: `POST /api/like/<name>` creates the metadata entry for the basename
lazily on its first invocation and flips the liked flag; a second invocation
restores the original liked state (toggling is an involution on the flag);
and the capture workflows never create or modify metadata entries — entries
are never auto-created by capture. -/
theorem c9_like_toggle_involution (md : Metadata) (name : PathC) :
    mdLookup (toggle_like md name) (basename name)
      = some (some (!likedOf md (basename name))) ∧
    likedOf (toggle_like (toggle_like md name) name) (basename name)
      = likedOf md (basename name) ∧
    (∀ (o : Outcome (Option PathC)) (s : SrvState),
      (captureSingleRun o s).photo_metadata = s.photo_metadata) ∧
    (∀ (o : Outcome (List PathC × Option PathC)) (s : SrvState),
      (captureStripRun o s).photo_metadata = s.photo_metadata) := by
  refine ⟨toggle_like_lookup md name, toggle_like_involutive md name, ?_, ?_⟩
  · intro o s
    cases o with
    | exn => rfl
    | ok v => cases v <;> rfl
  · intro o s
    cases o with
    | exn => rfl
    | ok v =>
      obtain ⟨paths, stripRes⟩ := v
      by_cases hp : paths ≠ []
      · cases stripRes <;> simp [captureStripRun, hp]
      · simp [captureStripRun, hp]

/-- C5: every capture workflow admitted past the gate — single photo or strip
— clears `photo_in_progress` through the `finally` path on every outcome:
normal completion, empty capture, failed stitch, or an exception raised in
the body. -/
theorem c5_gate_always_cleared :
    (∀ (o : Outcome (Option PathC)) (s : SrvState),
      (captureSingleRun o s).photo_in_progress = false) ∧
    (∀ (o : Outcome (List PathC × Option PathC)) (s : SrvState),
      (captureStripRun o s).photo_in_progress = false) :=
  ⟨fun _ _ => rfl, fun _ _ => rfl⟩

/-- C4: `POST /api/photo` answers 400 with an "already in progress" message
whenever the gate is set at request time; 500 when the gate is free but the
camera was never initialized; otherwise a "started" response with the capture
workflow launched. -/
theorem c4_take_photo_admission (s : SrvState) (cam : Bool) :
    (s.photo_in_progress = true →
      (take_photo s cam).1.code = 400 ∧
      (take_photo s cam).1.message = "Photo already in progress!" ∧
      (take_photo s cam).2 = false) ∧
    (s.photo_in_progress = false → cam = false →
      (take_photo s cam).1.code = 500 ∧ (take_photo s cam).2 = false) ∧
    (s.photo_in_progress = false → cam = true →
      (take_photo s cam).1 = ⟨200, "started", "Taking photo..."⟩ ∧
      (take_photo s cam).2 = true) := by
  refine ⟨fun hg => ?_, fun hg hc => ?_, fun hg hc => ?_⟩
  · simp [take_photo, hg]
  · simp [take_photo, hg, hc]
  · simp [take_photo, hg, hc]

/-- Witness for C4: the three admission outcomes at concrete request states —
gate busy, gate free without a camera, gate free with a camera. -/
theorem c4_take_photo_admission_witness :
    ((take_photo ⟨true, .ready, []⟩ true).1.code = 400 ∧
      (take_photo ⟨true, .ready, []⟩ true).1.message = "Photo already in progress!" ∧
      (take_photo ⟨true, .ready, []⟩ true).2 = false) ∧
    ((take_photo ⟨false, .ready, []⟩ false).1.code = 500 ∧
      (take_photo ⟨false, .ready, []⟩ false).2 = false) ∧
    ((take_photo ⟨false, .ready, []⟩ true).1 = ⟨200, "started", "Taking photo..."⟩ ∧
      (take_photo ⟨false, .ready, []⟩ true).2 = true) :=
  ⟨(c4_take_photo_admission ⟨true, .ready, []⟩ true).1 rfl,
   (c4_take_photo_admission ⟨false, .ready, []⟩ false).2.1 rfl rfl,
   (c4_take_photo_admission ⟨false, .ready, []⟩ true).2.2 rfl rfl⟩

end Server

namespace Kiosk

/-- C6: from REVIEW, once the review duration has elapsed the controller
moves to PRINTING and launches the print job exactly when the pending output
path is set; with no pending path it goes straight to IDLE and no print
starts. -/
theorem c6_review_transition (s : KState) (now : ℚ)
    (hstate : s.state = .REVIEW)
    (helapsed : now - s.state_start ≥ REVIEW_DURATION) :
    (∀ p, s.current_print_path = some p →
      (tick_review now s).1.state = .PRINTING ∧
      (tick_review now s).2 = some ⟨p, s.current_is_strip⟩) ∧
    (s.current_print_path = none →
      (tick_review now s).1.state = .IDLE ∧
      (tick_review now s).2 = none) := by
  unfold tick_review
  rw [if_pos ⟨hstate, helapsed⟩]
  constructor
  · intro p hp
    unfold start_printing_current
    rw [hp]
    exact ⟨rfl, rfl⟩
  · intro hp
    unfold start_printing_current
    rw [hp]
    exact ⟨rfl, rfl⟩

/-- Witness for C6 at concrete review states (review entered at time 0,
ticked at time 5): with a pending path the kiosk enters PRINTING launching
that job, and with none it returns to IDLE with no job. -/
theorem c6_review_transition_witness :
    ((tick_review 5 ⟨.REVIEW, 0, some ['a'], false, false⟩).1.state = .PRINTING ∧
      (tick_review 5 ⟨.REVIEW, 0, some ['a'], false, false⟩).2 = some ⟨['a'], false⟩) ∧
    ((tick_review 5 ⟨.REVIEW, 0, none, true, false⟩).1.state = .IDLE ∧
      (tick_review 5 ⟨.REVIEW, 0, none, true, false⟩).2 = none) :=
  ⟨(c6_review_transition ⟨.REVIEW, 0, some ['a'], false, false⟩ 5 rfl
      (by norm_num [REVIEW_DURATION])).1 ['a'] rfl,
   (c6_review_transition ⟨.REVIEW, 0, none, true, false⟩ 5 rfl
      (by norm_num [REVIEW_DURATION])).2 rfl⟩

end Kiosk
